import Mathlib

/-!
Verification model of `HWSD_total_column.py`.

The script reads topsoil (`T_*`) and subsoil (`S_*`) gridded soil variables,
gap-fills the subsoil texture fractions from the topsoil, computes a
0.3/0.7 depth-weighted total-column composite per variable, replaces
remaining missing cells with a fill value, and assembles dataset metadata.

Modelling choices:
* A grid cell holds either a numeric value or the missing marker (NaN),
  modelled as `Option ℚ` (`none` = missing).  Floating-point numbers are
  modelled by exact rationals.
* Array arithmetic propagates missing values (`addV`, `mulV`); a comparison
  against a missing value is `false` (`geV`), matching NaN semantics.
* `DataArray.where(cond, other)` keeps the array's own value where the
  condition holds and takes `other` elsewhere (`whereV` / grid level).
* `DataArray.fillna(v)` replaces missing cells with `v` and leaves every
  other cell unchanged (`fillna`).
* Python dictionaries of netCDF attributes are association lists with
  insert-at-front semantics (`setA` / `getA`); attribute values are either
  strings or numbers (`AttrVal`), mirroring the dynamic typing of the dict.
-/

namespace HWSD

/-- A cell value: a number, or the missing marker (NaN). -/
abbrev Val := Option ℚ

/-- NaN-propagating addition of two cell values. -/
def addV : Val → Val → Val
  | some a, some b => some (a + b)
  | _, _ => none

/-- NaN-propagating multiplication of a cell value by a constant. -/
def mulV : Val → ℚ → Val
  | some a, c => some (a * c)
  | none, _ => none

/-- The comparison `x >= c`.  A comparison against a missing value (NaN)
is always `false`. -/
def geV : Val → ℚ → Bool
  | some a, c => decide (c ≤ a)
  | none, _ => false

/-- `x.where(cond, other)`: keep `x` where `cond` holds, else `other`. -/
def whereV (x : Val) (cond : Bool) (other : Val) : Val :=
  if cond then x else other

/-- `x.fillna(v)` at one cell: a missing cell becomes `v`, a non-missing
cell is unchanged. -/
def fillnaV (x : Val) (v : ℚ) : Val :=
  some (x.getD v)

/-- A grid: one cell value per index.  All grids of one run share the same
index set (co-registered coordinates). -/
abbrev Grid (ι : Type) := ι → Val

/-- A one-cell grid (the handcrafted single-cell test grids of the spec). -/
def one (x : Val) : Grid Unit := fun _ => x

/-- Source line 89:
`sand_test = S_sand.where((S_sand+S_silt+S_clay) >= 0.9, other=T_sand)`. -/
def sand_test {ι : Type} (S_sand S_silt S_clay T_sand : Grid ι) : Grid ι :=
  fun i =>
    whereV (S_sand i) (geV (addV (addV (S_sand i) (S_silt i)) (S_clay i)) (9/10)) (T_sand i)

/-- Source line 90:
`clay_test = S_clay.where((sand_test+S_silt+S_clay) >= 0.9, other=T_clay)`. -/
def clay_test {ι : Type} (S_sand S_silt S_clay T_sand T_clay : Grid ι) : Grid ι :=
  fun i =>
    whereV (S_clay i)
      (geV (addV (addV (sand_test S_sand S_silt S_clay T_sand i) (S_silt i)) (S_clay i)) (9/10))
      (T_clay i)

/-- Source line 91:
`silt_test = S_silt.where((sand_test+S_silt+clay_test) >= 0.9, other=T_silt)`. -/
def silt_test {ι : Type} (S_sand S_silt S_clay T_sand T_clay T_silt : Grid ι) : Grid ι :=
  fun i =>
    whereV (S_silt i)
      (geV (addV (addV (sand_test S_sand S_silt S_clay T_sand i) (S_silt i))
                 (clay_test S_sand S_silt S_clay T_sand T_clay i)) (9/10))
      (T_silt i)

/-- The column weighting `T*0.3 + S*0.7` applied cell-wise (source
lines 99-103 all have this shape). -/
def colWeight {ι : Type} (T S : Grid ι) : Grid ι :=
  fun i => addV (mulV (T i) (3/10)) (mulV (S i) (7/10))

/-- Source line 99: `Sand = T_sand*0.3 + S_sand*0.7`.  Note the second
argument is the raw subsoil grid `S_sand`: the reassignment of the
gap-filled grids (source lines 93-95) is commented out. -/
def Sand {ι : Type} (T_sand S_sand : Grid ι) : Grid ι := colWeight T_sand S_sand

/-- Source line 100: `Clay = T_clay*0.3 + S_clay*0.7` (raw `S_clay`). -/
def Clay {ι : Type} (T_clay S_clay : Grid ι) : Grid ι := colWeight T_clay S_clay

/-- Source line 101: `Silt = T_silt*0.3 + S_silt*0.7` (raw `S_silt`). -/
def Silt {ι : Type} (T_silt S_silt : Grid ι) : Grid ι := colWeight T_silt S_silt

/-- Source line 102: `Organic = T_oc*0.3 + S_oc*0.7`. -/
def Organic {ι : Type} (T_oc S_oc : Grid ι) : Grid ι := colWeight T_oc S_oc

/-- Source line 103: `Bulkden = T_bulkden*0.3 + S_bulkden*0.7`. -/
def Bulkden {ι : Type} (T_bulkden S_bulkden : Grid ι) : Grid ι := colWeight T_bulkden S_bulkden

/-- Source lines 109-113: `X = X.fillna(args.fValue)` applied to a grid,
with `v` the fill value as coerced to a number by the array library. -/
def fillna {ι : Type} (g : Grid ι) (v : ℚ) : Grid ι :=
  fun i => fillnaV (g i) v

/-- A netCDF attribute value as held in a Python dict: a string or a
number.  The script never converts the command-line fill value to a
number, so `_FillValue` is stored as a string. -/
inductive AttrVal
  | str : String → AttrVal
  | num : ℚ → AttrVal
deriving DecidableEq

/-- An attribute dictionary, as an association list (newest entry first). -/
abbrev AttrMap := List (String × AttrVal)

/-- Dictionary update `m[k] = v` (newest entry shadows older ones). -/
def setA (m : AttrMap) (k : String) (v : AttrVal) : AttrMap :=
  (k, v) :: m

/-- Dictionary access `m[k]` (first matching entry wins). -/
def getA : AttrMap → String → Option AttrVal
  | [], _ => none
  | (k, v) :: m, key => if key = k then some v else getA m key

/-- Dictionary access that additionally requires the value to be a string
(Python would raise a `TypeError` on `"..." + value` otherwise). -/
def getStr (m : AttrMap) (k : String) : Option String :=
  match getA m k with
  | some (.str s) => some s
  | _ => none

/-- The default of the `--fValue` option (source line 21): the *string*
`"-9999."`; `argparse` returns it as text and the script never applies
`float` to it. -/
def defaultFValue : String := "-9999."

/-- The default of the `--config` option (source line 18). -/
def defaultConfig : String := "config.yaml"

/-- Source lines 116-120: the attribute dict shared by all variables.
`args.fValue` is inserted as-is (a string) under `_FillValue`. -/
def commonAttrs (fValue : String) : AttrMap :=
  [("units", .str "-"),
   ("comment", .str "Column of soil between 0 and 100 cm."),
   ("_FillValue", .str fValue)]

/-- Source line 122: `Sand.assign_attrs(long_name=..., **attrs)`. -/
def Sand_attrs (fValue : String) : AttrMap :=
  setA (commonAttrs fValue) "long_name" (.str "soil sand fraction")

/-- Source line 123. -/
def Silt_attrs (fValue : String) : AttrMap :=
  setA (commonAttrs fValue) "long_name" (.str "soil silt fraction")

/-- Source line 124. -/
def Clay_attrs (fValue : String) : AttrMap :=
  setA (commonAttrs fValue) "long_name" (.str "soil clay fraction")

/-- Source line 125. -/
def Organic_attrs (fValue : String) : AttrMap :=
  setA (commonAttrs fValue) "long_name" (.str "soil organic carbon")

/-- Source lines 126-127: bulk density gets the common attributes and then
its `units` entry is overwritten with `"kg m-3"`. -/
def Bulkden_attrs (fValue : String) : AttrMap :=
  setA (setA (commonAttrs fValue) "long_name" (.str "soil bulk density")) "units" (.str "kg m-3")

/-- The attribute dictionary built by source lines 133-150, given the
values read from the input dataset's attributes and the current time
string.  The updates are applied in statement order on top of the copied
input dict; `processing` and `history` are read *before* being
overwritten. -/
def newAttrsList (srcAttrs : AttrMap) (curTime : String)
    (creator institution : AttrVal) (processing history : String) : AttrMap :=
  setA (setA (setA (setA (setA (setA (setA (setA (setA (setA (setA srcAttrs
    "original_creator" creator)
    "original_institution" institution)
    "original_processing"
      (.str ("The source data was created with this processing.\n " ++ processing)))
    "modified" (.str ("Claire Carouge, " ++ curTime)))
    "institution" (.str "CLEX, UNSW"))
    "creator" (.str "Claire Carouge"))
    "creator_email" (.str "c.carouge@unsw.edu.au"))
    "source" (.str "3x3minute regridded HWSD"))
    "title" (.str "Whole soil column 3x3minute regridded HWSD"))
    "processing"
      (.str ("Weighted average of the top soil and subsoil data by the height of the top soil column and subsoil soil column.\n "
             ++ "All parameters are output in one netcdf file.\n")))
    "history" (.str ("Weighted average with HWSD_total_column.py\n " ++ history))

/-- Source lines 133-150: dataset-level attribute assembly.  Starts from a
copy of the input dataset's attributes, saves `creator`, `institution` and
`processing` under `original_*` keys (there is no `original_history`),
overwrites the live fields, stamps `modified` with the current UTC time
string, and prepends a note to `history`.  Returns `none` when a required
input attribute is absent or (for the string-concatenated ones) not a
string, modelling the uncaught Python `KeyError`/`TypeError`. -/
def assemble (srcAttrs : AttrMap) (curTime : String) : Option AttrMap :=
  match getA srcAttrs "creator", getA srcAttrs "institution",
        getStr srcAttrs "processing", getStr srcAttrs "history" with
  | some creator, some institution, some processing, some history =>
      some (newAttrsList srcAttrs curTime creator institution processing history)
  | _, _, _, _ => none

/-- Drop the `modified` entry of an attribute dictionary. -/
def stripModified (m : AttrMap) : AttrMap :=
  m.filter (fun p => p.1 != "modified")

/-- The error raised by a run of the script, by Python error class. -/
inductive PyError
  | ioError (code : Nat)
  | unboundLocal (nm : String)
  | keyError (k : String)
  | attrError (nm : String)
deriving DecidableEq

/-- Is this one of Python's `KeyError`/`AttributeError` classes? -/
def isKeyOrAttr : PyError → Bool
  | .keyError _ => true
  | .attrError _ => true
  | _ => false

/-- The errno of a missing file. -/
def ENOENT : Nat := 2

/-- The parsed YAML configuration dictionary. -/
abbrev Yaml := List (String × String)

/-- Source lines 27-42, `read_config`.  Its file access is modelled by the
argument `fileRead`: the parsed dictionary on success, the `IOError` errno
on failure.  Returns the printed warnings and the outcome.  On `ENOENT`
the except-branch only prints a warning and falls through; the very next
statement `config['path'] = pathlib.Path(config['path'])` then reads the
never-assigned local `config`, which raises `UnboundLocalError`.  Any
other `IOError` is re-raised.  On success the `path` entry is looked up
(a missing key raises `KeyError`) and wrapped into a `Path` object
(identity on the modelled string). -/
def read_config (fileRead : Except Nat Yaml) (conffile : String) :
    List String × Except PyError Yaml :=
  match fileRead with
  | .ok config =>
      match config.lookup "path" with
      | some _ => ([], .ok config)
      | none => ([], .error (.keyError "path"))
  | .error code =>
      if code = ENOENT then
        (["warning: Configuration file " ++ conffile ++ " not found!"],
         .error (.unboundLocal "config"))
      else
        ([], .error (.ioError code))

/-- Spec-side definition of Gap Filler step 1 for the refinement check:
keep `subsoil.sand` where `subsoil.sand + subsoil.silt + subsoil.clay >= 0.9`,
else take `topsoil.sand`. -/
def specGapSand {ι : Type} (S_sand S_silt S_clay T_sand : Grid ι) : Grid ι :=
  fun i =>
    if geV (addV (addV (S_sand i) (S_silt i)) (S_clay i)) (9/10) then S_sand i else T_sand i

/-- Spec-side definition of Gap Filler step 2: keep `subsoil.clay` where
`sand' + subsoil.silt + subsoil.clay >= 0.9` with `sand'` the
already-updated sand, else take `topsoil.clay`. -/
def specGapClay {ι : Type} (S_sand S_silt S_clay T_sand T_clay : Grid ι) : Grid ι :=
  fun i =>
    if geV (addV (addV (specGapSand S_sand S_silt S_clay T_sand i) (S_silt i)) (S_clay i)) (9/10)
    then S_clay i else T_clay i

/-- Spec-side definition of Gap Filler step 3: keep `subsoil.silt` where
`sand' + subsoil.silt + clay' >= 0.9` with `sand'` and `clay'` the
already-updated values, else take `topsoil.silt`. -/
def specGapSilt {ι : Type} (S_sand S_silt S_clay T_sand T_clay T_silt : Grid ι) : Grid ι :=
  fun i =>
    if geV (addV (addV (specGapSand S_sand S_silt S_clay T_sand i) (S_silt i))
               (specGapClay S_sand S_silt S_clay T_sand T_clay i)) (9/10)
    then S_silt i else T_silt i

/-- A concrete input attribute dictionary, for concrete evaluations. -/
def srcAttrs0 : AttrMap :=
  [("creator", .str "FAO"), ("institution", .str "IIASA"),
   ("processing", .str "regridded to 3x3 minutes"), ("history", .str "created 2008")]

/-- A fixed time string for concrete evaluations. -/
def time0 : String := "Mon 01 Jan 2024 00:00:00 UTC"

/-- A second, different time string. -/
def time1 : String := "Tue 02 Jan 2024 00:00:00 UTC"

/-- The assembled output attributes for `srcAttrs0` at `time0`. -/
def out0 : AttrMap := (assemble srcAttrs0 time0).getD []

end HWSD

namespace HWSD

/-- C1: the script's texture composites are computed from the RAW subsoil
grids, not the gap-filled ones (the reassignment at source lines 93-95 is
commented out).  At the one-cell input with subsoil texture
(0.5, 0.1, 0.1) and topsoil sand 0.6, the gap filler yields sand' = 0.6,
the composite the code computes is 0.3*0.6 + 0.7*0.5 = 0.53, while the
composite from the gap-filled grid would be 0.3*0.6 + 0.7*0.6 = 0.6, and
the two differ. -/
theorem composite_uses_raw_subsoil_texture :
    sand_test (one (some (1/2))) (one (some (1/10))) (one (some (1/10))) (one (some (3/5))) ()
      = some (3/5)
  ∧ Sand (one (some (3/5))) (one (some (1/2))) () = some (53/100)
  ∧ colWeight (one (some (3/5)))
      (sand_test (one (some (1/2))) (one (some (1/10))) (one (some (1/10))) (one (some (3/5)))) ()
      = some (3/5)
  ∧ (53 : ℚ)/100 ≠ 3/5 := by
  refine ⟨?_, ?_, ?_, ?_⟩ <;>
    norm_num [sand_test, Sand, colWeight, one, whereV, addV, mulV, geV]

/-- C2: the Gap Filler performs its three substitutions sequentially in
the order sand, clay, silt, each later threshold test mixing
already-updated values with raw subsoil values (refinement against the
spec-side definitions), and on the one-cell example with
subsoil = (0.5, 0.1, 0.1) and topsoil = (0.6, 0.2, 0.2) it yields
sand' = 0.6, clay' = 0.2, silt' = 0.1. -/
theorem gap_fill_sequential_and_example :
    (∀ (ι : Type) (Ss Si Sc Ts : Grid ι),
      sand_test Ss Si Sc Ts = specGapSand Ss Si Sc Ts)
  ∧ (∀ (ι : Type) (Ss Si Sc Ts Tc : Grid ι),
      clay_test Ss Si Sc Ts Tc = specGapClay Ss Si Sc Ts Tc)
  ∧ (∀ (ι : Type) (Ss Si Sc Ts Tc Ti : Grid ι),
      silt_test Ss Si Sc Ts Tc Ti = specGapSilt Ss Si Sc Ts Tc Ti)
  ∧ sand_test (one (some (1/2))) (one (some (1/10))) (one (some (1/10))) (one (some (3/5))) ()
      = some (3/5)
  ∧ clay_test (one (some (1/2))) (one (some (1/10))) (one (some (1/10))) (one (some (3/5)))
      (one (some (1/5))) () = some (1/5)
  ∧ silt_test (one (some (1/2))) (one (some (1/10))) (one (some (1/10))) (one (some (3/5)))
      (one (some (1/5))) (one (some (1/5))) () = some (1/10) := by
  refine ⟨fun ι Ss Si Sc Ts => rfl, fun ι Ss Si Sc Ts Tc => rfl,
    fun ι Ss Si Sc Ts Tc Ti => rfl, ?_, ?_, ?_⟩ <;>
    norm_num [sand_test, clay_test, silt_test, one, whereV, addV, geV]

/-- C3: a missing value entering the triple-sum makes the sum missing and
the `>= 0.9` test false; in particular a missing `subsoil.sand` forces
`sand' = topsoil.sand` whatever the silt and clay grids hold. -/
theorem missing_fails_threshold :
    (∀ a b c : Val, a = none ∨ b = none ∨ c = none →
      addV (addV a b) c = none ∧ geV (addV (addV a b) c) (9/10) = false)
  ∧ (∀ (ι : Type) (Si Sc Ts : Grid ι) (i : ι),
      sand_test (fun _ => none) Si Sc Ts i = Ts i) := by
  constructor
  · rintro a b c (rfl | rfl | rfl)
    · exact ⟨rfl, rfl⟩
    · cases a <;> exact ⟨rfl, rfl⟩
    · cases a <;> cases b <;> exact ⟨rfl, rfl⟩
  · exact fun ι Si Sc Ts i => rfl

/-- C3 witness: the general statement applied at a concrete missing sand
value and at a concrete one-cell grid. -/
theorem missing_fails_threshold_check :
    (addV (addV none (some 1)) (some 1) = none
      ∧ geV (addV (addV none (some 1)) (some 1)) (9/10) = false)
  ∧ sand_test (fun _ => none) (one (some (1/10))) (one (some (1/10))) (one (some (3/5))) ()
      = some (3/5) :=
  ⟨missing_fails_threshold.1 none (some 1) (some 1) (Or.inl rfl),
   missing_fails_threshold.2 Unit (one (some (1/10))) (one (some (1/10))) (one (some (3/5))) ()⟩

/-- C4: the composite the code computes for CLAY at a cell where
gap-filling substitutes the topsoil clay is 0.3*0.2 + 0.7*0.1 = 0.13,
not the claimed 0.3*topsoil + 0.7*subsoil_corrected = 0.2 (the raw
subsoil grid is composited); the missing-propagation half of the claim
does hold: a missing topsoil or subsoil cell makes the composite cell
missing. -/
theorem composite_weighting_mismatch :
    Clay (one (some (1/5))) (one (some (1/10))) () = some (13/100)
  ∧ clay_test (one (some (1/2))) (one (some (1/10))) (one (some (1/10))) (one (some (3/5)))
      (one (some (1/5))) () = some (1/5)
  ∧ colWeight (one (some (1/5)))
      (clay_test (one (some (1/2))) (one (some (1/10))) (one (some (1/10))) (one (some (3/5)))
        (one (some (1/5)))) () = some (1/5)
  ∧ (13 : ℚ)/100 ≠ 1/5
  ∧ Clay (fun _ => none) (one (some (1/10))) () = none
  ∧ Clay (one (some (1/5))) (fun _ => none) () = none := by
  refine ⟨?_, ?_, ?_, ?_, rfl, rfl⟩ <;>
    norm_num [Clay, clay_test, sand_test, colWeight, one, whereV, addV, mulV, geV]

/-- C7: the sentinel normalizer is idempotent on whole grids, and it never
changes a non-missing cell, a legitimate zero included. -/
theorem fillna_idempotent_preserves :
    (∀ (ι : Type) (g : Grid ι) (v : ℚ), fillna (fillna g v) v = fillna g v)
  ∧ (∀ (ι : Type) (g : Grid ι) (v : ℚ) (i : ι) (q : ℚ), g i = some q → fillna g v i = some q)
  ∧ (∀ v : ℚ, fillnaV (some 0) v = some 0) := by
  refine ⟨fun ι g v => funext fun i => rfl, fun ι g v i q h => ?_, fun v => rfl⟩
  simp [fillna, fillnaV, h]

/-- C7 witness: idempotence and zero-preservation at a concrete one-cell
grid holding a legitimate zero. -/
theorem fillna_idempotent_preserves_check :
    fillna (fillna (one (some 0)) (-9999)) (-9999) = fillna (one (some 0)) (-9999)
  ∧ fillna (one (some 0)) (-9999) () = some 0 :=
  ⟨fillna_idempotent_preserves.1 Unit (one (some 0)) (-9999),
   fillna_idempotent_preserves.2.1 Unit (one (some 0)) (-9999) () 0 rfl⟩

/-- C10: when the step-1 threshold test fails at a cell and the topsoil
sand there is missing, the gap-filled cell stays missing; and a cell whose
topsoil input is missing composites to missing and is then replaced by the
sentinel by the fill step. -/
theorem missing_topsoil_stays_missing_then_sentinel :
    ∀ (ι : Type) (Ss Si Sc Sraw : Grid ι) (i : ι) (v : ℚ),
      geV (addV (addV (Ss i) (Si i)) (Sc i)) (9/10) = false →
      sand_test Ss Si Sc (fun _ => none) i = none
      ∧ colWeight (fun _ => none) Sraw i = none
      ∧ fillna (colWeight (fun _ => none) Sraw) v i = some v := by
  intro ι Ss Si Sc Sraw i v h
  refine ⟨?_, rfl, rfl⟩
  simp [sand_test, whereV, h]

/-- C10 witness: the theorem applied at a one-cell grid whose subsoil
texture sums to 0.3 (threshold fails) with missing topsoil sand. -/
theorem missing_topsoil_stays_missing_then_sentinel_check :
    sand_test (one (some (1/10))) (one (some (1/10))) (one (some (1/10))) (fun _ => none) () = none
  ∧ colWeight (fun _ => none) (one (some (1/2))) () = none
  ∧ fillna (colWeight (fun _ => none) (one (some (1/2)))) (-9999) () = some (-9999) :=
  missing_topsoil_stays_missing_then_sentinel Unit (one (some (1/10))) (one (some (1/10)))
    (one (some (1/10))) (one (some (1/2))) () (-9999)
    (by norm_num [one, addV, geV])

/-- Helper: when all four read attributes are present, `assemble`
produces exactly the update chain of source lines 133-150. -/
theorem assemble_eq (m : AttrMap) (t : String) (creator institution : AttrVal)
    (processing history : String)
    (hcr : getA m "creator" = some creator)
    (hin : getA m "institution" = some institution)
    (hpr : getStr m "processing" = some processing)
    (hhi : getStr m "history" = some history) :
    assemble m t = some (newAttrsList m t creator institution processing history) := by
  unfold assemble
  rw [hcr, hin, hpr, hhi]

/-- Helper: `assemble` aborts when a read attribute is absent. -/
theorem assemble_none (m : AttrMap) (t : String)
    (h : getA m "creator" = none ∨ getA m "institution" = none
       ∨ getStr m "processing" = none ∨ getStr m "history" = none) :
    assemble m t = none := by
  unfold assemble
  rcases h with h | h | h | h <;> rw [h] <;>
    rcases getA m "creator" with _ | c <;>
    rcases getA m "institution" with _ | i <;>
    rcases getStr m "processing" with _ | p <;>
    rcases getStr m "history" with _ | q <;> rfl

/-- C5 counterexample: on a concrete input carrying creator, institution,
processing and history attributes, the assembled output has NO
`original_history` entry, although the input's `history` was present. -/
theorem no_original_history :
    (assemble srcAttrs0 time0).isSome = true
  ∧ getStr srcAttrs0 "history" = some "created 2008"
  ∧ getA out0 "original_history" = none := by
  refine ⟨rfl, rfl, rfl⟩

/-- C5 (amended): the assembler copies `creator` and `institution` into
`original_creator` and `original_institution`, stores the old processing
text under `original_processing` behind a fixed note, overwrites the live
`creator` and `institution`, stamps `modified` with the UTC time string,
sets the new `processing` text, and prepends a note to the old history in
`history`; it does not create an `original_history` entry. -/
theorem assembler_provenance :
    ∀ (m : AttrMap) (t : String) (out : AttrMap), assemble m t = some out →
      getA out "original_creator" = getA m "creator"
      ∧ getA out "original_institution" = getA m "institution"
      ∧ (∀ p : String, getStr m "processing" = some p →
          getA out "original_processing"
            = some (.str ("The source data was created with this processing.\n " ++ p)))
      ∧ getA out "creator" = some (.str "Claire Carouge")
      ∧ getA out "institution" = some (.str "CLEX, UNSW")
      ∧ getA out "modified" = some (.str ("Claire Carouge, " ++ t))
      ∧ (∀ h : String, getStr m "history" = some h →
          getA out "history"
            = some (.str ("Weighted average with HWSD_total_column.py\n " ++ h)))
      ∧ (getA m "original_history" = none → getA out "original_history" = none) := by
  intro m t out hout
  rcases hcr : getA m "creator" with _ | creator
  · rw [assemble_none m t (Or.inl hcr)] at hout; cases hout
  rcases hin : getA m "institution" with _ | institution
  · rw [assemble_none m t (Or.inr (Or.inl hin))] at hout; cases hout
  rcases hpr : getStr m "processing" with _ | processing
  · rw [assemble_none m t (Or.inr (Or.inr (Or.inl hpr)))] at hout; cases hout
  rcases hhi : getStr m "history" with _ | history
  · rw [assemble_none m t (Or.inr (Or.inr (Or.inr hhi)))] at hout; cases hout
  rw [assemble_eq m t creator institution processing history hcr hin hpr hhi] at hout
  injection hout with hout
  subst hout
  refine ⟨rfl, rfl, ?_, rfl, rfl, rfl, ?_, ?_⟩
  · intro p hp
    injection hp with e
    subst e
    rfl
  · intro h hh
    injection hh with e
    subst e
    rfl
  · intro hnone
    show getA m "original_history" = none
    exact hnone

/-- C5 witness: the amended theorem applied to the concrete input
`srcAttrs0` at `time0`. -/
theorem assembler_provenance_check :
    getA out0 "original_creator" = some (.str "FAO")
  ∧ getA out0 "creator" = some (.str "Claire Carouge")
  ∧ getA out0 "original_history" = none :=
  ⟨((assembler_provenance srcAttrs0 time0 out0 rfl).1).trans rfl,
   (assembler_provenance srcAttrs0 time0 out0 rfl).2.2.2.1,
   (assembler_provenance srcAttrs0 time0 out0 rfl).2.2.2.2.2.2.2 rfl⟩

/-- C6 counterexample: the per-variable `_FillValue` attribute holds the
command-line text verbatim — the *string* `"-9999."`, which is not the
number `-9999` of any numeric attribute value. -/
theorem fillvalue_stored_as_string :
    getA (commonAttrs defaultFValue) "_FillValue" = some (.str "-9999.")
  ∧ getA (Sand_attrs defaultFValue) "_FillValue" = some (.str "-9999.")
  ∧ AttrVal.str "-9999." ≠ AttrVal.num (-9999) :=
  ⟨rfl, rfl, fun h => nomatch h⟩

/-- C6 (amended): the fill-value option is accepted as text (default the
string `"-9999."`) and passed on without conversion: every variable's
`_FillValue` attribute records the string verbatim, while the fill step
replaces exactly the missing cells with the fill value as coerced to a
number by the array library, leaving non-missing cells unchanged. -/
theorem fillvalue_text_verbatim :
    defaultFValue = "-9999."
  ∧ (∀ fv : String,
      getA (Sand_attrs fv) "_FillValue" = some (.str fv)
      ∧ getA (Silt_attrs fv) "_FillValue" = some (.str fv)
      ∧ getA (Clay_attrs fv) "_FillValue" = some (.str fv)
      ∧ getA (Organic_attrs fv) "_FillValue" = some (.str fv)
      ∧ getA (Bulkden_attrs fv) "_FillValue" = some (.str fv))
  ∧ (∀ (ι : Type) (g : Grid ι) (v : ℚ) (i : ι),
      (g i = none → fillna g v i = some v)
      ∧ (∀ q : ℚ, g i = some q → fillna g v i = some q)) := by
  refine ⟨rfl, fun fv => ⟨rfl, rfl, rfl, rfl, rfl⟩, fun ι g v i => ⟨fun h => ?_, fun q h => ?_⟩⟩
  · simp [fillna, fillnaV, h]
  · simp [fillna, fillnaV, h]

/-- C6 witness: the amended theorem applied at the default fill string and
at a concrete one-cell missing grid. -/
theorem fillvalue_text_verbatim_check :
    getA (Sand_attrs "-9999.") "_FillValue" = some (.str "-9999.")
  ∧ fillna (one none) (-9999) () = some (-9999)
  ∧ fillna (one (some (1/2))) (-9999) () = some (1/2) :=
  ⟨(fillvalue_text_verbatim.2.1 "-9999.").1,
   (fillvalue_text_verbatim.2.2 Unit (one none) (-9999) ()).1 rfl,
   (fillvalue_text_verbatim.2.2 Unit (one (some (1/2))) (-9999) ()).2 (1/2) rfl⟩

/-- C8 counterexample: with the configuration file absent (`ENOENT`), the
script prints a warning and then fails on the very next statement with an
`UnboundLocalError` on `config` — which is not a `KeyError` or
`AttributeError`. -/
theorem config_missing_unbound_local :
    read_config (.error ENOENT) defaultConfig
      = (["warning: Configuration file config.yaml not found!"],
         .error (.unboundLocal "config"))
  ∧ isKeyOrAttr (.unboundLocal "config") = false :=
  ⟨rfl, rfl⟩

/-- C8 (amended): a missing configuration file is logged as a warning and
execution continues past the handler, but the immediately following access
to the never-assigned `config` local fails with an unbound-local error
(not an attribute/key error); any other I/O errno is propagated as the
original `IOError`; a readable configuration with a `path` entry is
returned. -/
theorem config_missing_warns_then_unbound :
    (∀ conffile : String,
      read_config (.error ENOENT) conffile
        = (["warning: Configuration file " ++ conffile ++ " not found!"],
           .error (.unboundLocal "config")))
  ∧ (∀ (conffile : String) (code : Nat), code ≠ ENOENT →
      read_config (.error code) conffile = ([], .error (.ioError code)))
  ∧ (∀ (conffile : String) (y : Yaml) (p : String), y.lookup "path" = some p →
      read_config (.ok y) conffile = ([], .ok y)) := by
  refine ⟨fun conffile => rfl, fun conffile code h => ?_, fun conffile y p h => ?_⟩
  · have e : read_config (.error code) conffile
        = if code = ENOENT then
            (["warning: Configuration file " ++ conffile ++ " not found!"],
             .error (.unboundLocal "config"))
          else ([], .error (.ioError code)) := rfl
    rw [e, if_neg h]
  · have e : read_config (.ok y) conffile
        = (match y.lookup "path" with
           | some _ => ([], Except.ok y)
           | none => ([], .error (.keyError "path"))) := rfl
    rw [e, h]

/-- C8 witness: the amended theorem applied at errno 13 (not `ENOENT`) and
at a concrete parsed configuration. -/
theorem config_missing_warns_then_unbound_check :
    read_config (.error 13) "config.yaml" = ([], .error (.ioError 13))
  ∧ read_config (.ok [("path", "/data"), ("soil_vars", "SAND")]) "config.yaml"
      = ([], .ok [("path", "/data"), ("soil_vars", "SAND")]) :=
  ⟨config_missing_warns_then_unbound.2.1 "config.yaml" 13 (by decide),
   config_missing_warns_then_unbound.2.2 "config.yaml"
     [("path", "/data"), ("soil_vars", "SAND")] "/data" rfl⟩

/-- C9 counterexample: two runs over the same input attributes that differ
only in the processing wall-clock time produce different dataset
attributes — the `modified` attribute embeds the timestamp. -/
theorem modified_attr_differs :
    (assemble srcAttrs0 time0).isSome = true
  ∧ (assemble srcAttrs0 time1).isSome = true
  ∧ getA ((assemble srcAttrs0 time0).getD []) "modified"
      = some (.str "Claire Carouge, Mon 01 Jan 2024 00:00:00 UTC")
  ∧ getA ((assemble srcAttrs0 time1).getD []) "modified"
      = some (.str "Claire Carouge, Tue 02 Jan 2024 00:00:00 UTC")
  ∧ assemble srcAttrs0 time0 ≠ assemble srcAttrs0 time1 := by
  refine ⟨rfl, rfl, rfl, rfl, ?_⟩
  decide

/-- C9 (amended): two runs with identical input attributes agree on every
dataset attribute except `modified`, which embeds the processing
timestamp; with equal timestamps the outputs are identical.  (The grid
outputs do not depend on the time at all: the composite definitions take
only the input grids.) -/
theorem runs_agree_except_modified :
    ∀ (m : AttrMap) (t₁ t₂ : String) (out₁ out₂ : AttrMap),
      assemble m t₁ = some out₁ → assemble m t₂ = some out₂ →
      stripModified out₁ = stripModified out₂
      ∧ getA out₁ "modified" = some (.str ("Claire Carouge, " ++ t₁))
      ∧ (t₁ = t₂ → out₁ = out₂) := by
  intro m t₁ t₂ out₁ out₂ hout₁ hout₂
  rcases hcr : getA m "creator" with _ | creator
  · rw [assemble_none m t₁ (Or.inl hcr)] at hout₁; cases hout₁
  rcases hin : getA m "institution" with _ | institution
  · rw [assemble_none m t₁ (Or.inr (Or.inl hin))] at hout₁; cases hout₁
  rcases hpr : getStr m "processing" with _ | processing
  · rw [assemble_none m t₁ (Or.inr (Or.inr (Or.inl hpr)))] at hout₁; cases hout₁
  rcases hhi : getStr m "history" with _ | history
  · rw [assemble_none m t₁ (Or.inr (Or.inr (Or.inr hhi)))] at hout₁; cases hout₁
  rw [assemble_eq m t₁ creator institution processing history hcr hin hpr hhi] at hout₁
  rw [assemble_eq m t₂ creator institution processing history hcr hin hpr hhi] at hout₂
  injection hout₁ with hout₁
  injection hout₂ with hout₂
  subst hout₁
  subst hout₂
  refine ⟨?_, rfl, fun h => by rw [h]⟩
  simp [stripModified, newAttrsList, setA]

/-- C9 witness: the amended theorem applied at the concrete input
`srcAttrs0` with the two concrete time strings. -/
theorem runs_agree_except_modified_check :
    stripModified ((assemble srcAttrs0 time0).getD [])
      = stripModified ((assemble srcAttrs0 time1).getD [])
  ∧ getA ((assemble srcAttrs0 time0).getD []) "modified"
      = some (.str ("Claire Carouge, " ++ time0)) :=
  ⟨(runs_agree_except_modified srcAttrs0 time0 time1
      ((assemble srcAttrs0 time0).getD []) ((assemble srcAttrs0 time1).getD []) rfl rfl).1,
   (runs_agree_except_modified srcAttrs0 time0 time1
      ((assemble srcAttrs0 time0).getD []) ((assemble srcAttrs0 time1).getD []) rfl rfl).2.1⟩

end HWSD
